import Mathlib

/-!
Shallow embedding of the player-account API server (`src/app.js`, the
session-enabled version of the file).  The relational `players` table is a
list of rows, HTTP handlers are functions from the request body and current
state to the next state and a JSON response, and `express-session` is a
token-keyed store of `SessionUser` records.  `bcrypt.hash`/`bcrypt.compare`
are passed in as opaque function parameters, matching the call sites.
-/

/-- One row of the `players` table, columns as declared in the Sequelize
model, plus the `unlocked_levels` column referenced by the raw
update-progress query (spec section 6 lists it as part of the persisted
schema even though the model does not declare it). -/
structure PlayerRow where
  id : Nat
  username : String
  email : Option String
  display_name : Option String
  theme : String
  avatar : Option String
  points : Int
  coins : Int
  networking_completed : Bool
  programming_completed : Bool
  systemunit_completed : Bool
  networking_hard_perfect : Bool
  programming_game_unlocked : Bool
  progress : Option String
  password : String
  unlocked_levels : Option String
deriving DecidableEq

abbrev DB := List PlayerRow

/-- JSON values, enough to model every response body the handlers build. -/
inductive JVal where
  | jnull
  | jbool (b : Bool)
  | jnum (n : Int)
  | jstr (s : String)
  | jobj (fields : List (String × JVal))

mutual

/-- `true` iff the key `k` occurs as an object key anywhere in the value. -/
def JVal.mentionsKey (k : String) : JVal → Bool
  | .jnull => false
  | .jbool _ => false
  | .jnum _ => false
  | .jstr _ => false
  | .jobj fs => mentionsKeyFields k fs

def mentionsKeyFields (k : String) : List (String × JVal) → Bool
  | [] => false
  | (key, v) :: rest => key == k || JVal.mentionsKey k v || mentionsKeyFields k rest

end

structure HttpResp where
  status : Nat
  body : JVal

/-- JavaScript truthiness test on an optional string request field:
`!x` is true when the field is absent (`undefined`/`null`) or `""`. -/
def falsy : Option String → Bool
  | none => true
  | some s => s == ""

def optStr : Option String → JVal
  | none => .jnull
  | some s => .jstr s

/-- Serialization of a model instance (`res.json(player)` /
`res.json({ ..., player })`): all declared attributes, in declaration
order, password hash included. -/
def playerJson (p : PlayerRow) : JVal :=
  .jobj [("id", .jnum (p.id : Int)), ("username", .jstr p.username),
         ("email", optStr p.email), ("display_name", optStr p.display_name),
         ("theme", .jstr p.theme), ("avatar", optStr p.avatar),
         ("points", .jnum p.points), ("coins", .jnum p.coins),
         ("networking_completed", .jbool p.networking_completed),
         ("programming_completed", .jbool p.programming_completed),
         ("systemunit_completed", .jbool p.systemunit_completed),
         ("networking_hard_perfect", .jbool p.networking_hard_perfect),
         ("programming_game_unlocked", .jbool p.programming_game_unlocked),
         ("progress", optStr p.progress), ("password", .jstr p.password)]

/-- Serialization used by `/api/current-user`, which restricts the query
to the attribute list `['id','username','email','display_name','theme',
'avatar','points','coins']`. -/
def currentUserJson (p : PlayerRow) : JVal :=
  .jobj [("id", .jnum (p.id : Int)), ("username", .jstr p.username),
         ("email", optStr p.email), ("display_name", optStr p.display_name),
         ("theme", .jstr p.theme), ("avatar", optStr p.avatar),
         ("points", .jnum p.points), ("coins", .jnum p.coins)]

def findByUsername (db : DB) (u : String) : Option PlayerRow :=
  db.find? (fun p => p.username == u)

def findById (db : DB) (i : Nat) : Option PlayerRow :=
  db.find? (fun p => p.id == i)

/-- `player.save()` / `player.update(...)` persist by primary key. -/
def replaceById (db : DB) (i : Nat) (q : PlayerRow) : DB :=
  db.map (fun r => if r.id == i then q else r)

/-- Auto-increment primary key for a fresh insert. -/
def freshId (db : DB) : Nat :=
  db.foldr (fun p m => max p.id m) 0 + 1

structure CreateReq where
  username : Option String
  password : Option String
  email : Option String

def newPlayerRow (bhash : String → String) (db : DB) (u pw : String)
    (email : Option String) : PlayerRow :=
  { id := freshId db, username := u, email := email, display_name := none,
    theme := "system", avatar := none, points := 0, coins := 0,
    networking_completed := false, programming_completed := false,
    systemunit_completed := false, networking_hard_perfect := false,
    programming_game_unlocked := false, progress := none,
    password := bhash pw, unlocked_levels := none }

/-- `POST /create-player`.  A duplicate username makes `Player.create`
throw the unique-constraint error, which the handler's catch-all converts
to the generic 500 response. -/
def createPlayer (bhash : String → String) (db : DB) (req : CreateReq) :
    DB × HttpResp :=
  if falsy req.username || falsy req.password then
    (db, ⟨400, .jobj [("error", .jstr "Username and password are required")]⟩)
  else
    let u := req.username.getD ""
    let pw := req.password.getD ""
    if db.any (fun p => p.username == u) then
      (db, ⟨500, .jobj [("error", .jstr "Failed to create player")]⟩)
    else
      let row := newPlayerRow bhash db u pw req.email
      (db ++ [row],
       ⟨200, .jobj [("success", .jbool true), ("player", playerJson row)]⟩)

structure SessionUser where
  id : Nat
  username : String
deriving DecidableEq

/-- Server-side session state: opaque cookie token ↦ bound user. -/
abbrev SessionStore := List (String × SessionUser)

def sessionUser (store : SessionStore) : Option String → Option SessionUser
  | none => none
  | some t => (store.find? (fun e => e.1 == t)).map (fun e => e.2)

def setSession (store : SessionStore) (sid : String) (u : SessionUser) :
    SessionStore :=
  (sid, u) :: store.filter (fun e => e.1 != sid)

def destroySession (store : SessionStore) (sid : String) : SessionStore :=
  store.filter (fun e => e.1 != sid)

structure LoginReq where
  username : String
  password : String

/-- `POST /login`.  `sid` is the session id express-session associates
with the request. -/
def login (cmp : String → String → Bool) (db : DB) (store : SessionStore)
    (sid : String) (req : LoginReq) : SessionStore × HttpResp :=
  match findByUsername db req.username with
  | none =>
      (store, ⟨404, .jobj [("success", .jbool false),
                           ("message", .jstr "Player not found")]⟩)
  | some p =>
      if cmp req.password p.password then
        (setSession store sid ⟨p.id, p.username⟩,
         ⟨200, .jobj [("success", .jbool true),
                      ("player", .jobj [("id", .jnum (p.id : Int)),
                                        ("username", .jstr p.username)])]⟩)
      else
        (store, ⟨401, .jobj [("success", .jbool false),
                             ("message", .jstr "Invalid password")]⟩)

structure ProfileReq where
  email : Option String
  displayName : Option String
  theme : Option String
  avatar : Option String

/-- JavaScript `supplied || old` on a nullable column: a supplied
non-empty string wins, an absent or empty-string value keeps the old one. -/
def orKeep (v : Option String) (old : Option String) : Option String :=
  match v with
  | some s => if s == "" then old else some s
  | none => old

/-- Same `||` pattern on the non-nullable `theme` column. -/
def orKeepStr (v : Option String) (old : String) : String :=
  match v with
  | some s => if s == "" then old else s
  | none => old

/-- The `player.update({...})` call of `POST /api/update-profile`. -/
def applyProfile (p : PlayerRow) (req : ProfileReq) : PlayerRow :=
  { p with email := orKeep req.email p.email,
           display_name := orKeep req.displayName p.display_name,
           theme := orKeepStr req.theme p.theme,
           avatar := orKeep req.avatar p.avatar }

/-- The identity-gated operations, all registered behind `isAuthenticated`. -/
inductive GatedOp where
  | currentUser
  | updateProfile (req : ProfileReq)
  | uploadAvatar (avatar : Option String)
  | changePassword (currentPassword newPassword : String)
  | deleteAccount
  | logoutOthers

def unauthResp : HttpResp :=
  ⟨401, .jobj [("error", .jstr "Not authenticated")]⟩

def userNotFoundResp : HttpResp :=
  ⟨404, .jobj [("error", .jstr "User not found")]⟩

/-- Handler bodies of the gated routes, run with the session's bound user
`u` and the request's session id `sid`. -/
def runGated (cmp : String → String → Bool) (bhash : String → String)
    (db : DB) (store : SessionStore) (sid : String) (u : SessionUser) :
    GatedOp → DB × SessionStore × HttpResp
  | .currentUser =>
    match findById db u.id with
    | none => (db, store, userNotFoundResp)
    | some p => (db, store, ⟨200, currentUserJson p⟩)
  | .updateProfile req =>
    match findById db u.id with
    | none => (db, store, userNotFoundResp)
    | some p =>
      (replaceById db p.id (applyProfile p req), store,
       ⟨200, .jobj [("success", .jbool true),
                    ("message", .jstr "Profile updated successfully")]⟩)
  | .uploadAvatar a =>
    match findById db u.id with
    | none => (db, store, userNotFoundResp)
    | some p =>
      (replaceById db p.id { p with avatar := a }, store,
       ⟨200, .jobj [("success", .jbool true),
                    ("message", .jstr "Avatar uploaded successfully")]⟩)
  | .changePassword cur new =>
    match findById db u.id with
    | none => (db, store, userNotFoundResp)
    | some p =>
      if cmp cur p.password then
        (replaceById db p.id { p with password := bhash new }, store,
         ⟨200, .jobj [("success", .jbool true),
                      ("message", .jstr "Password changed successfully")]⟩)
      else
        (db, store, ⟨401, .jobj [("error", .jstr "Current password is incorrect")]⟩)
  | .deleteAccount =>
    match findById db u.id with
    | none => (db, store, userNotFoundResp)
    | some p =>
      (db.filter (fun r => r.id != p.id), destroySession store sid,
       ⟨200, .jobj [("success", .jbool true),
                    ("message", .jstr "Account deleted successfully")]⟩)
  | .logoutOthers =>
    (db, store, ⟨200, .jobj [("success", .jbool true),
                             ("message", .jstr "Other sessions logged out")]⟩)

/-- A gated request: the `isAuthenticated` middleware consults the session
bound to the request's cookie token and rejects with 401 before the route
handler runs when no user is bound. -/
def handleGated (cmp : String → String → Bool) (bhash : String → String)
    (db : DB) (store : SessionStore) (tok : Option String) (op : GatedOp) :
    DB × SessionStore × HttpResp :=
  match tok with
  | none => (db, store, unauthResp)
  | some t =>
    match sessionUser store (some t) with
    | none => (db, store, unauthResp)
    | some u => runGated cmp bhash db store t u op

structure RewardReq where
  username : Option String
  points : Option Int
  coins : Option Int

/-- `POST /api/reward`.  `points || 0` / `coins || 0` on integer request
fields is delta-or-zero-when-absent (`0 || 0` is also `0`). -/
def reward (db : DB) (req : RewardReq) : DB × HttpResp :=
  if falsy req.username then
    (db, ⟨400, .jobj [("error", .jstr "Username is required")]⟩)
  else
    match findByUsername db (req.username.getD "") with
    | none => (db, ⟨404, .jobj [("error", .jstr "Player not found")]⟩)
    | some p =>
      let newCoins := p.coins + req.coins.getD 0
      if newCoins < 0 then
        (db, ⟨400, .jobj [("error", .jstr "Not enough coins")]⟩)
      else
        let q := { p with points := p.points + req.points.getD 0,
                          coins := newCoins }
        (replaceById db p.id q,
         ⟨200, .jobj [("success", .jbool true),
                      ("message", .jstr "Reward applied"),
                      ("player", playerJson q)]⟩)

structure UpdateCoinsReq where
  username : Option String
  coins : Int

/-- `POST /update-coins`: raw `UPDATE players SET coins = :coins WHERE
username = :username`, no row-count check, no floor check. -/
def updateCoins (db : DB) (req : UpdateCoinsReq) : DB × HttpResp :=
  if falsy req.username then
    (db, ⟨400, .jobj [("error", .jstr "Username required")]⟩)
  else
    let u := req.username.getD ""
    (db.map (fun p => if p.username == u then { p with coins := req.coins } else p),
     ⟨200, .jobj [("success", .jbool true), ("coins", .jnum req.coins)]⟩)

structure UpdateProgressReq where
  username : Option String
  coins : Int
  /-- already the `JSON.stringify(unlockedLevels)` text the handler binds. -/
  unlockedLevels : String

/-- `POST /update-progress`: raw `UPDATE players SET coins = :coins,
unlocked_levels = :unlockedLevels WHERE username = :username`. -/
def updateProgress (db : DB) (req : UpdateProgressReq) : DB × HttpResp :=
  if falsy req.username then
    (db, ⟨400, .jobj [("error", .jstr "Username required")]⟩)
  else
    let u := req.username.getD ""
    (db.map (fun p =>
        if p.username == u then
          { p with coins := req.coins, unlocked_levels := some req.unlockedLevels }
        else p),
     ⟨200, .jobj [("success", .jbool true)]⟩)

/-! Concrete fixtures used by witnesses and counterexamples. -/

/-- Deterministic stand-in for `bcrypt.hash` with a fixed salt. -/
def hashModel (plain : String) : String := "h(" ++ plain ++ ")"

/-- Matching stand-in for `bcrypt.compare`. -/
def cmpModel (plain hashed : String) : Bool := hashed == "h(" ++ plain ++ ")"

def aliceRow : PlayerRow :=
  { id := 1, username := "alice", email := some "a@b.c",
    display_name := some "Alice", theme := "light", avatar := none,
    points := 0, coins := 5, networking_completed := false,
    programming_completed := false, systemunit_completed := false,
    networking_hard_perfect := false, programming_game_unlocked := false,
    progress := none, password := hashModel "pw", unlocked_levels := none }

def bobRow : PlayerRow :=
  { id := 2, username := "bob", email := none, display_name := none,
    theme := "system", avatar := none, points := 0, coins := 0,
    networking_completed := false, programming_completed := false,
    systemunit_completed := false, networking_hard_perfect := false,
    programming_game_unlocked := false, progress := none,
    password := hashModel "pw2", unlocked_levels := none }

def dbEx : DB := [aliceRow, bobRow]

def storeEx : SessionStore := [("tok1", ⟨1, "alice"⟩)]

/-! Helper lemmas about `mentionsKey`. -/

theorem mentionsKey_optStr (k : String) (o : Option String) :
    JVal.mentionsKey k (optStr o) = false := by
  cases o <;> rfl

theorem mentionsKey_jobj (k : String) (fs : List (String × JVal)) :
    JVal.mentionsKey k (.jobj fs) = mentionsKeyFields k fs := rfl

theorem mentionsKeyFields_nil (k : String) : mentionsKeyFields k [] = false := rfl

theorem mentionsKeyFields_cons (k key : String) (v : JVal)
    (rest : List (String × JVal)) :
    mentionsKeyFields k ((key, v) :: rest)
      = (key == k || JVal.mentionsKey k v || mentionsKeyFields k rest) := rfl

theorem mentionsKey_jbool (k : String) (b : Bool) :
    JVal.mentionsKey k (.jbool b) = false := rfl

theorem mentionsKey_jstr (k s : String) :
    JVal.mentionsKey k (.jstr s) = false := rfl

theorem currentUserJson_no_password (p : PlayerRow) :
    JVal.mentionsKey "password" (currentUserJson p) = false := by
  simp [currentUserJson, JVal.mentionsKey, mentionsKeyFields, mentionsKey_optStr]

theorem playerJson_mentions_password (p : PlayerRow) :
    JVal.mentionsKey "password" (playerJson p) = true := by
  simp [playerJson, JVal.mentionsKey, mentionsKeyFields, mentionsKey_optStr]

theorem currentUser_resp_no_password (cmp : String → String → Bool)
    (bhash : String → String) (db : DB) (store : SessionStore)
    (tok : Option String) :
    ((handleGated cmp bhash db store tok .currentUser).2.2.body.mentionsKey
      "password") = false := by
  cases tok with
  | none =>
      simp [handleGated, unauthResp, JVal.mentionsKey, mentionsKeyFields]
  | some t =>
      cases hs : sessionUser store (some t) with
      | none =>
          simp [handleGated, hs, unauthResp, JVal.mentionsKey, mentionsKeyFields]
      | some u =>
          cases hp : findById db u.id with
          | none =>
              simp [handleGated, hs, runGated, hp, userNotFoundResp,
                    JVal.mentionsKey, mentionsKeyFields]
          | some p =>
              simp [handleGated, hs, runGated, hp, currentUserJson_no_password]

theorem updateProfile_resp_no_password (cmp : String → String → Bool)
    (bhash : String → String) (db : DB) (store : SessionStore)
    (tok : Option String) (preq : ProfileReq) :
    ((handleGated cmp bhash db store tok (.updateProfile preq)).2.2.body.mentionsKey
      "password") = false := by
  cases tok with
  | none =>
      simp [handleGated, unauthResp, JVal.mentionsKey, mentionsKeyFields]
  | some t =>
      cases hs : sessionUser store (some t) with
      | none =>
          simp [handleGated, hs, unauthResp, JVal.mentionsKey, mentionsKeyFields]
      | some u =>
          cases hp : findById db u.id with
          | none =>
              simp [handleGated, hs, runGated, hp, userNotFoundResp,
                    JVal.mentionsKey, mentionsKeyFields]
          | some p =>
              simp [handleGated, hs, runGated, hp, JVal.mentionsKey,
                    mentionsKeyFields]

theorem createPlayer_200_mentions_password (bhash : String → String)
    (db : DB) (creq : CreateReq)
    (hc : (createPlayer bhash db creq).2.status = 200) :
    (createPlayer bhash db creq).2.body.mentionsKey "password" = true := by
  by_cases h1 : (falsy creq.username || falsy creq.password) = true
  · simp [createPlayer, h1] at hc
  · by_cases h2 : (db.any fun p => p.username == creq.username.getD "") = true
    · simp [createPlayer, h1, h2] at hc
    · simp [createPlayer, h1, h2, mentionsKey_jobj, mentionsKeyFields_cons,
            mentionsKeyFields_nil, mentionsKey_jbool,
            playerJson_mentions_password]

theorem reward_200_mentions_password (db : DB) (rreq : RewardReq)
    (hr : (reward db rreq).2.status = 200) :
    (reward db rreq).2.body.mentionsKey "password" = true := by
  by_cases h1 : falsy rreq.username = true
  · simp [reward, h1] at hr
  · cases hm : findByUsername db (rreq.username.getD "") with
    | none => simp [reward, h1, hm] at hr
    | some p =>
        by_cases h2 : p.coins + rreq.coins.getD 0 < 0
        · simp [reward, h1, hm, h2] at hr
        · simp [reward, h1, hm, h2, mentionsKey_jobj, mentionsKeyFields_cons,
                mentionsKeyFields_nil, mentionsKey_jbool, mentionsKey_jstr,
                playerJson_mentions_password]

theorem mentionsKey_jnum (k : String) (n : Int) :
    JVal.mentionsKey k (.jnum n) = false := rfl

/-- C1 counterexample: the create-account success response (status 200) and
the reward success response both contain a `password` field, contradicting
the claim that no success response does. -/
theorem c1_counterexample :
    ((createPlayer hashModel [] ⟨some ("carol"), some ("pw"), none⟩).2.status = 200
      ∧ (createPlayer hashModel [] ⟨some ("carol"), some ("pw"), none⟩).2.body.mentionsKey
          "password" = true)
  ∧ ((reward dbEx ⟨some ("alice"), some 3, some 2⟩).2.status = 200
      ∧ (reward dbEx ⟨some ("alice"), some 3, some 2⟩).2.body.mentionsKey
          "password" = true) :=
  ⟨⟨rfl, rfl⟩, ⟨rfl, rfl⟩⟩

/-- C1 (amended): the current-user and update-profile responses never carry
a `password` field, but every create-account and reward success response
returns the full player row, password hash included. -/
theorem c1_password_exposure (cmp : String → String → Bool)
    (bhash : String → String) (db : DB) (store : SessionStore)
    (tok : Option String) (preq : ProfileReq) (creq : CreateReq)
    (rreq : RewardReq)
    (hc : (createPlayer bhash db creq).2.status = 200)
    (hr : (reward db rreq).2.status = 200) :
    (handleGated cmp bhash db store tok .currentUser).2.2.body.mentionsKey
        "password" = false
  ∧ (handleGated cmp bhash db store tok (.updateProfile preq)).2.2.body.mentionsKey
        "password" = false
  ∧ (createPlayer bhash db creq).2.body.mentionsKey "password" = true
  ∧ (reward db rreq).2.body.mentionsKey "password" = true :=
  ⟨currentUser_resp_no_password cmp bhash db store tok,
   updateProfile_resp_no_password cmp bhash db store tok preq,
   createPlayer_200_mentions_password bhash db creq hc,
   reward_200_mentions_password db rreq hr⟩

/-- C1 witness: concrete instantiation of the amended claim. -/
theorem c1_witness :
    (handleGated cmpModel hashModel dbEx storeEx (some ("tok1"))
        .currentUser).2.2.body.mentionsKey "password" = false
  ∧ (handleGated cmpModel hashModel dbEx storeEx (some ("tok1"))
        (.updateProfile ⟨none, none, some ("dark"), none⟩)).2.2.body.mentionsKey
        "password" = false
  ∧ (createPlayer hashModel dbEx ⟨some ("carol"), some ("pw"), none⟩).2.body.mentionsKey
        "password" = true
  ∧ (reward dbEx ⟨some ("alice"), some 3, some 2⟩).2.body.mentionsKey
        "password" = true :=
  c1_password_exposure cmpModel hashModel dbEx storeEx (some ("tok1"))
    ⟨none, none, some ("dark"), none⟩ ⟨some ("carol"), some ("pw"), none⟩
    ⟨some ("alice"), some 3, some 2⟩ rfl rfl

/-- C2: a reward whose coins delta would make the resulting coins negative
is rejected with the insufficient-coins error and leaves the table — hence
the player's coins and points — unchanged, whatever points delta was
supplied. -/
theorem c2_insufficient_coins_no_mutation (db : DB) (req : RewardReq)
    (u : String) (p : PlayerRow)
    (hu : req.username = some u) (hne : u ≠ "")
    (hp : findByUsername db u = some p)
    (hneg : p.coins + req.coins.getD 0 < 0) :
    reward db req
      = (db, ⟨400, .jobj [("error", .jstr "Not enough coins")]⟩) := by
  have hf : falsy (some u) = false := by simp [falsy, hne]
  simp [reward, hu, hf, hp, hneg]

/-- C2 witness: the spec's own example — coins 5, reward coins −10. -/
theorem c2_witness :
    reward dbEx ⟨some ("alice"), none, some (-10)⟩
      = (dbEx, ⟨400, .jobj [("error", .jstr "Not enough coins")]⟩) :=
  c2_insufficient_coins_no_mutation dbEx ⟨some ("alice"), none, some (-10)⟩
    ("alice") aliceRow rfl (by decide) rfl (by decide)

/-- C3: the update-coins route succeeds for an existing username and stores
exactly the given coins value, with no non-negativity check. -/
theorem c3_update_coins_no_floor (db : DB) (u : String) (c : Int)
    (p : PlayerRow) (hne : u ≠ "") (hp : p ∈ db) (hpu : p.username = u) :
    (updateCoins db ⟨some u, c⟩).2
        = ⟨200, .jobj [("success", .jbool true), ("coins", .jnum c)]⟩
  ∧ { p with coins := c } ∈ (updateCoins db ⟨some u, c⟩).1 := by
  have hf : falsy (some u) = false := by simp [falsy, hne]
  have h1 : (updateCoins db ⟨some u, c⟩).1
      = db.map (fun r => if r.username == u then { r with coins := c } else r) := by
    simp [updateCoins, hf]
  constructor
  · simp [updateCoins, hf]
  · rw [h1]
    exact List.mem_map.mpr ⟨p, hp, by simp [hpu]⟩

/-- C3 witness: the spec's own example — coins set to −5. -/
theorem c3_witness :
    (updateCoins dbEx ⟨some ("alice"), -5⟩).2
        = ⟨200, .jobj [("success", .jbool true), ("coins", .jnum (-5))]⟩
  ∧ { aliceRow with coins := -5 } ∈ (updateCoins dbEx ⟨some ("alice"), -5⟩).1 :=
  c3_update_coins_no_floor dbEx ("alice") (-5) aliceRow (by decide)
    (List.mem_cons_self aliceRow [bobRow]) rfl

/-- C4 counterexample: re-creating the taken username `alice` does not
produce a distinct Conflict-kind response — the unique-constraint error is
swallowed by the catch-all and the route answers with the same generic
HTTP 500 internal-error body it uses for any storage failure (the table is
left unchanged). -/
theorem c4_counterexample :
    createPlayer hashModel dbEx ⟨some ("alice"), some ("pw9"), none⟩
      = (dbEx, ⟨500, .jobj [("error", .jstr "Failed to create player")]⟩) := rfl

/-- C4 (amended): a second create with a taken username fails — but with
the generic 500 internal response rather than a distinct Conflict kind —
and exactly one row with that username persists. -/
theorem c4_duplicate_username (bhash : String → String) (db : DB)
    (req : CreateReq) (u : String)
    (hu : req.username = some u) (hne : u ≠ "")
    (hpw : falsy req.password = false)
    (hone : (db.filter fun p => p.username == u).length = 1) :
    (createPlayer bhash db req).1 = db
  ∧ (createPlayer bhash db req).2
      = ⟨500, .jobj [("error", .jstr "Failed to create player")]⟩
  ∧ ((createPlayer bhash db req).1.filter fun p => p.username == u).length = 1 := by
  have hf : falsy (some u) = false := by simp [falsy, hne]
  have hany : (db.any fun p => p.username == u) = true := by
    rcases h : db.filter (fun p => p.username == u) with _ | ⟨q, rest⟩
    · rw [h] at hone
      simp at hone
    · have hq : q ∈ db.filter (fun p => p.username == u) := by
        rw [h]
        exact List.mem_cons_self q rest
      have hq2 := List.mem_filter.mp hq
      exact List.any_eq_true.mpr ⟨q, hq2.1, hq2.2⟩
  refine ⟨?_, ?_, ?_⟩ <;> simp [createPlayer, hu, hf, hpw, hany, hone]

/-- C4 witness: concrete duplicate create against the fixture table. -/
theorem c4_witness :
    (createPlayer hashModel dbEx ⟨some ("alice"), some ("pw9"), none⟩).1 = dbEx
  ∧ (createPlayer hashModel dbEx ⟨some ("alice"), some ("pw9"), none⟩).2
      = ⟨500, .jobj [("error", .jstr "Failed to create player")]⟩
  ∧ ((createPlayer hashModel dbEx ⟨some ("alice"), some ("pw9"), none⟩).1.filter
        fun p => p.username == "alice").length = 1 :=
  c4_duplicate_username hashModel dbEx ⟨some ("alice"), some ("pw9"), none⟩
    ("alice") rfl (by decide) rfl rfl

/-- C5: login answers 404 Player-not-found for an unknown username and 401
Invalid-password for a known username with a non-verifying password — the
two failures are always distinguished. -/
theorem c5_login_error_kinds (cmp : String → String → Bool) (db : DB)
    (store : SessionStore) (sid : String) (req : LoginReq) :
    (findByUsername db req.username = none →
      login cmp db store sid req
        = (store, ⟨404, .jobj [("success", .jbool false),
                               ("message", .jstr "Player not found")]⟩))
  ∧ (∀ p, findByUsername db req.username = some p →
      cmp req.password p.password = false →
      login cmp db store sid req
        = (store, ⟨401, .jobj [("success", .jbool false),
                               ("message", .jstr "Invalid password")]⟩)) := by
  constructor
  · intro h
    simp [login, h]
  · intro p hp hv
    simp [login, hp, hv]

/-- C5 witness: unknown username versus wrong password on the fixtures. -/
theorem c5_witness :
    login cmpModel dbEx [] ("s1") ⟨"ghost", "x"⟩
      = ([], ⟨404, .jobj [("success", .jbool false),
                          ("message", .jstr "Player not found")]⟩)
  ∧ login cmpModel dbEx [] ("s1") ⟨"alice", "wrong"⟩
      = ([], ⟨401, .jobj [("success", .jbool false),
                          ("message", .jstr "Invalid password")]⟩) :=
  ⟨(c5_login_error_kinds cmpModel dbEx [] ("s1") ⟨"ghost", "x"⟩).1 rfl,
   (c5_login_error_kinds cmpModel dbEx [] ("s1") ⟨"alice", "wrong"⟩).2
     aliceRow rfl rfl⟩

/-- C6: a successful login answers only the player's id and username (no
password field anywhere in the body) and binds the request's session to
that id and username. -/
theorem c6_login_success (cmp : String → String → Bool) (db : DB)
    (store : SessionStore) (sid : String) (req : LoginReq) (p : PlayerRow)
    (hp : findByUsername db req.username = some p)
    (hv : cmp req.password p.password = true) :
    (login cmp db store sid req).2
      = ⟨200, .jobj [("success", .jbool true),
                     ("player", .jobj [("id", .jnum (p.id : Int)),
                                       ("username", .jstr p.username)])]⟩
  ∧ (login cmp db store sid req).2.body.mentionsKey "password" = false
  ∧ sessionUser (login cmp db store sid req).1 (some sid)
      = some ⟨p.id, p.username⟩ := by
  refine ⟨?_, ?_, ?_⟩
  · simp [login, hp, hv]
  · simp [login, hp, hv, mentionsKey_jobj, mentionsKeyFields_cons,
          mentionsKeyFields_nil, mentionsKey_jbool, mentionsKey_jstr,
          mentionsKey_jnum]
  · simp [login, hp, hv, sessionUser, setSession]

/-- C6 witness: successful login of the fixture player. -/
theorem c6_witness :
    (login cmpModel dbEx [] ("s1") ⟨"alice", "pw"⟩).2
      = ⟨200, .jobj [("success", .jbool true),
                     ("player", .jobj [("id", .jnum 1),
                                       ("username", .jstr "alice")])]⟩
  ∧ (login cmpModel dbEx [] ("s1") ⟨"alice", "pw"⟩).2.body.mentionsKey
        "password" = false
  ∧ sessionUser (login cmpModel dbEx [] ("s1") ⟨"alice", "pw"⟩).1
        (some ("s1")) = some ⟨1, "alice"⟩ :=
  c6_login_success cmpModel dbEx [] ("s1") ⟨"alice", "pw"⟩ aliceRow rfl rfl

/-- C7: a reward whose resulting coins are non-negative adds the points and
coins deltas (absent fields count as 0) and persists the updated row, all
other rows kept. -/
theorem c7_reward_applies (db : DB) (req : RewardReq) (u : String)
    (p : PlayerRow)
    (hu : req.username = some u) (hne : u ≠ "")
    (hp : findByUsername db u = some p)
    (hnn : ¬ p.coins + req.coins.getD 0 < 0) :
    (reward db req).2.status = 200
  ∧ { p with points := p.points + req.points.getD 0,
             coins := p.coins + req.coins.getD 0 } ∈ (reward db req).1
  ∧ ∀ q ∈ db, q.id ≠ p.id → q ∈ (reward db req).1 := by
  have hf : falsy (some u) = false := by simp [falsy, hne]
  have hmem : p ∈ db := List.mem_of_find?_eq_some (by simpa [findByUsername] using hp)
  have h1 : (reward db req).1
      = replaceById db p.id
          { p with points := p.points + req.points.getD 0,
                   coins := p.coins + req.coins.getD 0 } := by
    simp [reward, hu, hf, hp, hnn]
  refine ⟨?_, ?_, ?_⟩
  · simp [reward, hu, hf, hp, hnn]
  · rw [h1]
    exact List.mem_map.mpr ⟨p, hmem, by simp⟩
  · intro q hq hqid
    rw [h1]
    exact List.mem_map.mpr ⟨q, hq, by simp [hqid]⟩

/-- C7 witness: the spec's own example — points 10 and coins 3 applied to a
player with points 0 and coins 0. -/
theorem c7_witness :
    (reward dbEx ⟨some ("bob"), some 10, some 3⟩).2.status = 200
  ∧ { bobRow with points := 10, coins := 3 }
      ∈ (reward dbEx ⟨some ("bob"), some 10, some 3⟩).1 := by
  have h := c7_reward_applies dbEx ⟨some ("bob"), some 10, some 3⟩ ("bob")
    bobRow rfl (by decide) rfl (by decide)
  exact ⟨h.1, h.2.1⟩

/-- After the current session is destroyed, its token resolves to no user. -/
theorem sessionUser_destroy (store : SessionStore) (t : String) :
    sessionUser (destroySession store t) (some t) = none := by
  simp only [sessionUser, destroySession, Option.map_eq_none']
  rw [List.find?_eq_none]
  intro x hx
  have hxt := (List.mem_filter.mp hx).2
  simp only [bne_iff_ne, ne_eq, decide_eq_true_eq] at hxt
  simp [hxt]

/-- C8: a gated request with no bound session is rejected with the 401
Not-authenticated response and touches neither the table nor the session
store; and once delete-account destroys the session, the old token binds no
user any more, so every later gated request with it gets the same 401. -/
theorem c8_session_gate (cmp : String → String → Bool)
    (bhash : String → String) (db : DB) (store : SessionStore) :
    (∀ tok op, sessionUser store tok = none →
        handleGated cmp bhash db store tok op = (db, store, unauthResp))
  ∧ (∀ t u p, sessionUser store (some t) = some u →
        findById db u.id = some p →
        sessionUser (handleGated cmp bhash db store (some t)
            .deleteAccount).2.1 (some t) = none
      ∧ ∀ op,
          handleGated cmp bhash
              (handleGated cmp bhash db store (some t) .deleteAccount).1
              (handleGated cmp bhash db store (some t) .deleteAccount).2.1
              (some t) op
            = ((handleGated cmp bhash db store (some t) .deleteAccount).1,
               (handleGated cmp bhash db store (some t) .deleteAccount).2.1,
               unauthResp)) := by
  have gate : ∀ (db2 : DB) (store2 : SessionStore) (tok : Option String) op,
      sessionUser store2 tok = none →
      handleGated cmp bhash db2 store2 tok op = (db2, store2, unauthResp) := by
    intro db2 store2 tok op h
    cases tok with
    | none => rfl
    | some t => simp [handleGated, h]
  refine ⟨fun tok op h => gate db store tok op h, ?_⟩
  intro t u p hs hp
  have hdel : handleGated cmp bhash db store (some t) .deleteAccount
      = (db.filter (fun r => r.id != p.id), destroySession store t,
         ⟨200, .jobj [("success", .jbool true),
                      ("message", .jstr "Account deleted successfully")]⟩) := by
    simp [handleGated, hs, runGated, hp]
  rw [hdel]
  exact ⟨sessionUser_destroy store t,
         fun op => gate _ _ (some t) op (sessionUser_destroy store t)⟩

/-- C8 witness: an anonymous current-user request is rejected, and after the
fixture session deletes its account the old token binds no user. -/
theorem c8_witness :
    handleGated cmpModel hashModel dbEx storeEx none .currentUser
      = (dbEx, storeEx, unauthResp)
  ∧ sessionUser (handleGated cmpModel hashModel dbEx storeEx (some ("tok1"))
        .deleteAccount).2.1 (some ("tok1")) = none := by
  have h := c8_session_gate cmpModel hashModel dbEx storeEx
  exact ⟨h.1 none .currentUser rfl,
         (h.2 ("tok1") ⟨1, "alice"⟩ aliceRow rfl rfl).1⟩

theorem orKeep_supplied (s : String) (old : Option String) (h : s ≠ "") :
    orKeep (some s) old = some s := by
  simp [orKeep, h]

theorem orKeep_skipped (v : Option String) (old : Option String)
    (h : v = none ∨ v = some "") : orKeep v old = old := by
  rcases h with h | h <;> simp [orKeep, h]

theorem orKeepStr_supplied (s : String) (old : String) (h : s ≠ "") :
    orKeepStr (some s) old = s := by
  simp [orKeepStr, h]

theorem orKeepStr_skipped (v : Option String) (old : String)
    (h : v = none ∨ v = some "") : orKeepStr v old = old := by
  rcases h with h | h <;> simp [orKeepStr, h]

/-- C9 counterexample: with email supplied as the empty string, the stored
row keeps its previous email instead of taking the supplied value — a
supplied field does not take the supplied value. -/
theorem c9_counterexample :
    (findById (handleGated cmpModel hashModel dbEx storeEx (some ("tok1"))
        (.updateProfile ⟨some (""), none, none, none⟩)).1 1).map
        (fun r => r.email)
      = some (some ("a@b.c"))
  ∧ some ("a@b.c") ≠ some ("" : String) :=
  ⟨rfl, by decide⟩

/-- C9 (amended): an authenticated profile update stores a row in which each
field supplied with a non-empty string takes that value, each field that is
absent or supplied as the empty string keeps its previous value, every
column outside email, display_name, theme and avatar is unchanged, all
other rows are kept, and the response is a 200 success. -/
theorem c9_profile_update (cmp : String → String → Bool)
    (bhash : String → String) (db : DB) (store : SessionStore) (t : String)
    (u : SessionUser) (p : PlayerRow) (req : ProfileReq)
    (hs : sessionUser store (some t) = some u)
    (hp : findById db u.id = some p) :
    ∃ q,
      q ∈ (handleGated cmp bhash db store (some t) (.updateProfile req)).1
      ∧ (∀ s, req.email = some s → s ≠ "" → q.email = some s)
      ∧ (req.email = none ∨ req.email = some "" → q.email = p.email)
      ∧ (∀ s, req.displayName = some s → s ≠ "" → q.display_name = some s)
      ∧ (req.displayName = none ∨ req.displayName = some "" →
          q.display_name = p.display_name)
      ∧ (∀ s, req.theme = some s → s ≠ "" → q.theme = s)
      ∧ (req.theme = none ∨ req.theme = some "" → q.theme = p.theme)
      ∧ (∀ s, req.avatar = some s → s ≠ "" → q.avatar = some s)
      ∧ (req.avatar = none ∨ req.avatar = some "" → q.avatar = p.avatar)
      ∧ q.id = p.id ∧ q.username = p.username ∧ q.points = p.points
      ∧ q.coins = p.coins ∧ q.password = p.password ∧ q.progress = p.progress
      ∧ q.networking_completed = p.networking_completed
      ∧ q.programming_completed = p.programming_completed
      ∧ q.systemunit_completed = p.systemunit_completed
      ∧ q.networking_hard_perfect = p.networking_hard_perfect
      ∧ q.programming_game_unlocked = p.programming_game_unlocked
      ∧ (∀ w ∈ db, w.id ≠ p.id →
          w ∈ (handleGated cmp bhash db store (some t) (.updateProfile req)).1)
      ∧ (handleGated cmp bhash db store (some t)
            (.updateProfile req)).2.2.status = 200 := by
  have hmem : p ∈ db := List.mem_of_find?_eq_some (by simpa [findById] using hp)
  have hdb : (handleGated cmp bhash db store (some t) (.updateProfile req)).1
      = replaceById db p.id (applyProfile p req) := by
    simp [handleGated, hs, runGated, hp]
  refine ⟨applyProfile p req, ?_, ?_, ?_, ?_, ?_, ?_, ?_, ?_, ?_, ?_, ?_, ?_,
      ?_, ?_, ?_, ?_, ?_, ?_, ?_, ?_, ?_, ?_⟩
  · rw [hdb]
    exact List.mem_map.mpr ⟨p, hmem, by simp⟩
  · intro s hsup hneS
    simp [applyProfile, hsup, orKeep_supplied s p.email hneS]
  · intro h
    simp [applyProfile, orKeep_skipped req.email p.email h]
  · intro s hsup hneS
    simp [applyProfile, hsup, orKeep_supplied s p.display_name hneS]
  · intro h
    simp [applyProfile, orKeep_skipped req.displayName p.display_name h]
  · intro s hsup hneS
    simp [applyProfile, hsup, orKeepStr_supplied s p.theme hneS]
  · intro h
    simp [applyProfile, orKeepStr_skipped req.theme p.theme h]
  · intro s hsup hneS
    simp [applyProfile, hsup, orKeep_supplied s p.avatar hneS]
  · intro h
    simp [applyProfile, orKeep_skipped req.avatar p.avatar h]
  · rfl
  · rfl
  · rfl
  · rfl
  · rfl
  · rfl
  · rfl
  · rfl
  · rfl
  · rfl
  · rfl
  · intro w hw hwid
    rw [hdb]
    exact List.mem_map.mpr ⟨w, hw, by simp [hwid]⟩
  · simp [handleGated, hs, runGated, hp]

/-- C9 witness: an update supplying only the theme keeps the fixture's
email while storing the new theme. -/
theorem c9_witness :
    ∃ q, q ∈ (handleGated cmpModel hashModel dbEx storeEx (some ("tok1"))
          (.updateProfile ⟨none, none, some ("dark"), none⟩)).1
      ∧ q.theme = "dark" ∧ q.email = some ("a@b.c") := by
  obtain ⟨q, hq, he1, he2, hd1, hd2, ht1, ht2, ha1, ha2, hid, hun, hpt, hco,
      hpw, hpr, f1, f2, f3, f4, f5, hoth, hst⟩ :=
    c9_profile_update cmpModel hashModel dbEx storeEx ("tok1") ⟨1, "alice"⟩
      aliceRow ⟨none, none, some ("dark"), none⟩ rfl rfl
  exact ⟨q, hq, ht1 ("dark") rfl (by decide), he2 (Or.inl rfl)⟩

/-- C10: an update-coins or update-progress request naming a username with
no matching row still answers its success body, leaves the table untouched
and produces no NotFound error. -/
theorem c10_unknown_username_silent_success (db : DB) (u : String) (c : Int)
    (lv : String) (hne : u ≠ "") (hno : ∀ p ∈ db, p.username ≠ u) :
    updateCoins db ⟨some u, c⟩
      = (db, ⟨200, .jobj [("success", .jbool true), ("coins", .jnum c)]⟩)
  ∧ updateProgress db ⟨some u, c, lv⟩
      = (db, ⟨200, .jobj [("success", .jbool true)]⟩) := by
  have hf : falsy (some u) = false := by simp [falsy, hne]
  have hrow : ∀ p ∈ db, (p.username == u) = false := by
    intro p hpm
    simpa using hno p hpm
  constructor
  · simp only [updateCoins, hf, Bool.false_eq_true, if_false, Option.getD_some]
    have h2 : db.map
        (fun p => if p.username == u then { p with coins := c } else p)
          = db.map id :=
      List.map_congr_left (fun p hpm => by simp [hrow p hpm])
    rw [h2, List.map_id]
  · simp only [updateProgress, hf, Bool.false_eq_true, if_false,
        Option.getD_some]
    have h2 : db.map
        (fun p => if p.username == u then
            { p with coins := c, unlocked_levels := some lv }
          else p)
          = db.map id :=
      List.map_congr_left (fun p hpm => by simp [hrow p hpm])
    rw [h2, List.map_id]

/-- C10 witness: unknown username against the fixture table. -/
theorem c10_witness :
    updateCoins dbEx ⟨some ("ghost"), 7⟩
      = (dbEx, ⟨200, .jobj [("success", .jbool true), ("coins", .jnum 7)]⟩)
  ∧ updateProgress dbEx ⟨some ("ghost"), 7, "levels"⟩
      = (dbEx, ⟨200, .jobj [("success", .jbool true)]⟩) :=
  c10_unknown_username_silent_success dbEx ("ghost") 7 ("levels")
    (by decide) (by decide)
